import Mathlib

/-!
Shallow embedding of `unit-tests/unit-tests-post-processing.h` (librealsense
post-processing test fixture engine) and proofs about it.

Embedding conventions:
* C++ `float` values are modelled as exact rationals (`ℚ`).  IEEE rounding is
  out of scope; every comparison and arithmetic operation of the source is kept.
  Because Batteries marks the `ℚ` field operations `irreducible`, the embedding
  routes all rational arithmetic through reducible `mkRat`/`Rat.divInt`
  constructions (`ratMul`, `ratAdd`, ...), each proved equal to the
  corresponding field operation, so concrete runs still evaluate by `decide`.
* Machine integers are `Nat`/`Int` with explicit reductions mod 2^8 / 2^16 /
  2^32 / 2^64 at the points where the C++ code converts.
* `std::istream` is modelled by an explicit stream state (remaining characters
  plus `eofbit`/`failbit`), and `std::getline` by `getlineD`, following the
  C++ semantics: a sentry failure leaves the target untouched; extraction of
  zero characters at end of input sets `failbit`; reading up to end of input
  with at least one character extracted sets only `eofbit`.
* Fatal paths (`REQUIRE`, `std::stoi` exceptions, `std::map::at` on a missing
  key, unreadable binary files) are modelled with `Except`.  The Catch macro
  `REQUIRE` aborts the enclosing test on failure (it throws), so the
  validation cascade is modelled as stopping at its first failing check, while
  `INTERNAL_CATCH_TEST(..., ContinueOnFailure, "CHECK")` used by
  `profile_diffs` records its condition and continues.
-/

namespace PPF

/-! ## Reducible rational arithmetic (models C++ float operations exactly) -/

/-- Product of two rationals via `mkRat` (reducible version of `a * b`). -/
def ratMul (a b : ℚ) : ℚ := mkRat (a.num * b.num) (a.den * b.den)

/-- Sum of two rationals via `mkRat` (reducible version of `a + b`). -/
def ratAdd (a b : ℚ) : ℚ := mkRat (a.num * (b.den : Int) + b.num * (a.den : Int)) (a.den * b.den)

/-- Difference of two rationals via `mkRat` (reducible version of `a - b`). -/
def ratSub (a b : ℚ) : ℚ := mkRat (a.num * (b.den : Int) - b.num * (a.den : Int)) (a.den * b.den)

/-- Reciprocal of a rational via `Rat.divInt` (reducible version of `b⁻¹`). -/
def ratInv (b : ℚ) : ℚ := Rat.divInt (b.den : Int) b.num

/-- Quotient of two rationals (reducible version of `a / b`). -/
def ratDiv (a b : ℚ) : ℚ := ratMul a (ratInv b)

/-- Absolute value of a rational (reducible version of `|a|`, models `fabs`). -/
def ratAbs (a : ℚ) : ℚ := mkRat (a.num.natAbs : Int) a.den

/-- Decidable, reducible test for `a ≤ b` on rationals. -/
def ratLeB (a b : ℚ) : Bool := decide (a.num * (b.den : Int) ≤ b.num * (a.den : Int))

/-- Decidable, reducible test for `a < b` on rationals. -/
def ratLtB (a b : ℚ) : Bool := decide (a.num * (b.den : Int) < b.num * (a.den : Int))

/-! ## Machine-integer conversions -/

/-- Conversion of an `int` value to `uint8_t` (reduction mod 2^8). -/
def toU8 (i : Int) : Nat := (i % (2 ^ 8 : Int)).toNat

/-- Conversion of an `int` value to `uint32_t` (reduction mod 2^32). -/
def toU32 (i : Int) : Nat := (i % (2 ^ 32 : Int)).toNat

/-- Conversion of an `int` value to `size_t` (reduction mod 2^64). -/
def toU64 (i : Int) : Nat := (i % (2 ^ 64 : Int)).toNat

/-! ## Input stream model (`std::istream` state and `std::getline`) -/

/-- State of a C++ input stream: the characters not yet consumed and the
`eofbit`/`failbit` flags.  A missing file is modelled by an initial state with
`failbit` already set, matching an `std::ifstream` that failed to open. -/
structure IStream where
  rem : List Char
  eofbit : Bool
  failbit : Bool
deriving DecidableEq

/-- Splits a character list at the first occurrence of the delimiter: returns
the characters before it and, when found, the characters after it. -/
def splitD : List Char → Char → List Char × Option (List Char)
  | [], _ => ([], none)
  | c :: cs, d =>
    if c = d then ([], some cs)
    else
      let r := splitD cs d
      (c :: r.1, r.2)

/-- Model of `std::getline(stream, target, delim)`.  Returns the new stream
state and the new value of `target`.  The read succeeded iff the result has
`failbit = false`. -/
def getlineD (s : IStream) (delim : Char) (tgt : List Char) : IStream × List Char :=
  if s.eofbit || s.failbit then
    ({ s with failbit := true }, tgt)
  else
    match s.rem, splitD s.rem delim with
    | [], _ => (⟨[], true, true⟩, [])
    | _ :: _, (pre, some rest) => (⟨rest, s.eofbit, s.failbit⟩, pre)
    | _ :: _, (pre, none) => (⟨[], true, false⟩, pre)

/-- Whitespace recognised by default-locale `operator>>` extraction. -/
def isWs (c : Char) : Bool :=
  c = ' ' || c = '\t' || c = '\n' || c = '\r' || c = '\x0b' || c = '\x0c'

/-- Model of `std::stringstream ss(value); ss >> value;` — replaces `value` by
its first whitespace-delimited token, and leaves it unchanged when the
extraction fails (no token present). -/
def trimToken (v : List Char) : List Char :=
  let t := v.dropWhile isWs
  if t.isEmpty then v else t.takeWhile (fun c => !isWs c)

/-- String→string dictionary with last-write-wins insertion
(models the `std::map<std::string, std::string>` usage). -/
def Dict := List (List Char × List Char)

def dictInsert (d : Dict) (k v : List Char) : Dict :=
  match d with
  | [] => [(k, v)]
  | (k', v') :: rest => if k' = k then (k, v) :: rest else (k', v') :: dictInsert rest k v

def dictLookup (d : Dict) (k : List Char) : Option (List Char) :=
  match d with
  | [] => none
  | (k', v') :: rest => if k' = k then some v' else dictLookup rest k

/-- Models `dict.count(k) > 0`. -/
def dictContains (d : Dict) (k : List Char) : Bool := (dictLookup d k).isSome

/-! ## The `attrib_from_csv` read loop -/

/-- State of the key/value read loop of `attrib_from_csv`: the stream, the
current contents of the `key` and `value` locals, the dictionary built so
far, and the `invalid_line` counter. -/
structure PState where
  stream : IStream
  key : List Char
  value : List Char
  dict : Dict
  invalid : Nat

/-- One iteration of the `while (true)` loop of `attrib_from_csv`:
`getline(data, key, ',')` (counting a failed read in `invalid_line`),
`getline(data, value, '\n')`, trimming of `value`, `dict[key] = value`, and
the `invalid_line > 1` break test.  Returns the new state and whether the
loop breaks. -/
def parseIter (st : PState) : PState × Bool :=
  let r1 := getlineD st.stream ',' st.key
  let invalid' := if r1.1.failbit then st.invalid + 1 else st.invalid
  let r2 := getlineD r1.1 '\n' st.value
  let value' := trimToken r2.2
  ({ stream := r2.1, key := r1.2, value := value',
     dict := dictInsert st.dict r1.2 value', invalid := invalid' },
   decide (invalid' > 1))

/-- The read loop, with explicit fuel.  The `Bool` result records whether the
fuel ran out (it never does for `parseFuel`; see `parseLoop_total`). -/
def parseLoop : Nat → PState → PState × Bool
  | 0, st => (st, true)
  | Nat.succ f, st =>
    let r := parseIter st
    if r.2 then (r.1, false) else parseLoop f r.1

/-- Fuel that always suffices for `parseLoop` (proved by `parseLoop_total`). -/
def parseFuel (s : IStream) : Nat := 2 * s.rem.length + 4

/-- Initial loop state for a given input stream. -/
def initPState (s : IStream) : PState := ⟨s, [], [], [], 0⟩

/-- Runs the key/value read loop of `attrib_from_csv` on an input stream. -/
def runParse (s : IStream) : PState × Bool := parseLoop (parseFuel s) (initPState s)


/-! ## Termination analysis of the read loop -/

/-- Stream invariant: the error bits are only ever set once the input is
exhausted. -/
def SInv (s : IStream) : Prop := (s.eofbit || s.failbit) = true → s.rem = []

/-- Loop-state invariant. -/
def PInv (st : PState) : Prop := SInv st.stream

/-- Termination measure of the read loop. -/
def pMeasure (st : PState) : Nat :=
  2 * st.stream.rem.length + (2 - st.invalid) + (if st.stream.failbit then 0 else 1)

/-! ## Numeric parsing (`std::stoi` / `std::stof`) -/

def isDigitC (c : Char) : Bool := '0' ≤ c && c ≤ '9'

def digitsVal (ds : List Char) : Nat :=
  ds.foldl (fun a c => 10 * a + (c.toNat - '0'.toNat)) 0

/-- Optional leading sign; returns the sign and the remaining characters. -/
def parseSign : List Char → Int × List Char
  | '+' :: cs => (1, cs)
  | '-' :: cs => (-1, cs)
  | cs => (1, cs)

/-- Model of `std::stoi`: skip leading whitespace, optional sign, decimal
digits; no digits or a value outside `int` range means an exception
(`none`).  Trailing characters are ignored. -/
def stoi (s : List Char) : Option Int :=
  let sg := parseSign (s.dropWhile isWs)
  let ds := sg.2.takeWhile isDigitC
  if ds.isEmpty then none
  else
    let v : Int := sg.1 * (digitsVal ds : Int)
    if v < -(2 ^ 31 : Int) || (2 ^ 31 : Int) - 1 < v then none else some v

/-- Model of `std::stof` with exact (rational) semantics: optional sign,
decimal digits with optional fraction, optional decimal exponent.  IEEE
rounding is not modelled. -/
def stof (s : List Char) : Option ℚ :=
  let sg := parseSign (s.dropWhile isWs)
  let ip := sg.2.takeWhile isDigitC
  let r1 := sg.2.dropWhile isDigitC
  let hasDot := r1.head? = some '.'
  let fp := if hasDot then (r1.drop 1).takeWhile isDigitC else []
  let r2 := if hasDot then (r1.drop 1).dropWhile isDigitC else r1
  if ip.isEmpty && fp.isEmpty then none
  else
    let base : ℚ := mkRat (sg.1 * (digitsVal (ip ++ fp) : Int)) (10 ^ fp.length)
    match r2 with
    | 'e' :: es | 'E' :: es =>
      let esg := parseSign es
      let eds := esg.2.takeWhile isDigitC
      if eds.isEmpty then some base
      else if 0 ≤ esg.1 then some (ratMul base (mkRat ((10 : Int) ^ digitsVal eds) 1))
      else some (ratDiv base (mkRat ((10 : Int) ^ digitsVal eds) 1))
    | _ => some base

/-! ## The configuration record (`ppf_test_config`) -/

/-- The `ppf_test_config` struct.  `_input_frames`/`_output_frames` are the
`input_frames`/`output_frames` fields here; frame buffers are byte lists
(bytes modelled as characters — only their lengths are ever inspected). -/
structure ppf_test_config where
  name : List Char
  spatial_filter : Bool
  spatial_alpha : ℚ
  spatial_delta : Nat
  spatial_iterations : Int
  temporal_filter : Bool
  temporal_alpha : ℚ
  temporal_delta : Nat
  temporal_persistence : Nat
  holes_filter : Bool
  holes_filling_mode : Int
  downsample_scale : Int
  depth_units : ℚ
  stereo_baseline : ℚ
  focal_length : ℚ
  input_res_x : Nat
  input_res_y : Nat
  output_res_x : Nat
  output_res_y : Nat
  frames_sequence_size : Nat
  input_frame_names : List (List Char)
  output_frame_names : List (List Char)
  input_frames : List (List Char)
  output_frames : List (List Char)
deriving DecidableEq

/-- A freshly default-constructed `ppf_test_config`.  In the source,
`spatial_iterations` is the one member without an initialiser, so its
initial value is indeterminate and is taken here as a parameter. -/
def ppf_default (indet : Int) : ppf_test_config :=
  { name := [], spatial_filter := false, spatial_alpha := 0, spatial_delta := 0,
    spatial_iterations := indet, temporal_filter := false, temporal_alpha := 0,
    temporal_delta := 0, temporal_persistence := 0, holes_filter := false,
    holes_filling_mode := 0, downsample_scale := 1, depth_units := mkRat 1 1000,
    stereo_baseline := 0, focal_length := 0, input_res_x := 0, input_res_y := 0,
    output_res_x := 0, output_res_y := 0, frames_sequence_size := 1,
    input_frame_names := [], output_frame_names := [],
    input_frames := [], output_frames := [] }

/-- The `reset()` member function, statement for statement: every field it
does not mention is left unchanged. -/
def ppf_reset (c : ppf_test_config) : ppf_test_config :=
  { c with
    name := [],
    spatial_filter := false, temporal_filter := false, holes_filter := false,
    spatial_alpha := 0, temporal_alpha := 0,
    spatial_iterations := 0, temporal_persistence := 0, holes_filling_mode := 0,
    spatial_delta := 0, temporal_delta := 0,
    input_res_x := 0, input_res_y := 0, output_res_x := 0, output_res_y := 0,
    downsample_scale := 1,
    input_frames := [], output_frames := [] }

/-! ## The `attrib_from_csv` projection -/

inductive MetadataAttrib where
  | res_x | res_y | focal_length | depth_units | stereo_baseline | downscale
  | spat_filter | spat_alpha | spat_delta | spat_iter
  | temp_filter | temp_alpha | temp_delta | temp_persist
  | holes_filter | holes_fill | frames_sequence_size
deriving DecidableEq

/-- The attribute-name table. -/
def metadata_attributes : MetadataAttrib → List Char
  | .res_x => "Resolution_x".data
  | .res_y => "Resolution_y".data
  | .focal_length => "Focal Length".data
  | .depth_units => "Depth Units".data
  | .stereo_baseline => "Stereo Baseline".data
  | .downscale => "Scale".data
  | .spat_filter => "Spatial Filter Params:".data
  | .spat_alpha => "SpatialAlpha".data
  | .spat_delta => "SpatialDelta".data
  | .spat_iter => "SpatialIterations".data
  | .temp_filter => "Temporal Filter Params:".data
  | .temp_alpha => "TemporalAlpha".data
  | .temp_delta => "TemporalDelta".data
  | .temp_persist => "TemporalPersistency".data
  | .holes_filter => "Holes Filling Mode:".data
  | .holes_fill => "HolesFilling".data
  | .frames_sequence_size => "Frames sequence length".data

/-- Fatal outcomes inside `attrib_from_csv`: a `std::stoi`/`std::stof`
exception, the `REQUIRE(cfg.frames_sequence_size)` assertion, or
`dict.at(std::to_string(i))` on a missing key. -/
inductive PErr where
  | stoiFailure
  | stofFailure
  | requireFramesSequenceSize
  | frameNameMissing
deriving DecidableEq

/-- `dict.count(k) ? std::stoi(dict.at(k)) : dflt`. -/
def dictGetI (d : Dict) (k : List Char) (dflt : Int) : Except PErr Int :=
  match dictLookup d k with
  | none => .ok dflt
  | some v =>
    match stoi v with
    | some i => .ok i
    | none => .error .stoiFailure

/-- `dict.count(k) ? std::stof(dict.at(k)) : dflt`. -/
def dictGetF (d : Dict) (k : List Char) (dflt : ℚ) : Except PErr ℚ :=
  match dictLookup d k with
  | none => .ok dflt
  | some v =>
    match stof v with
    | some q => .ok q
    | none => .error .stofFailure

def natChars (n : Nat) : List Char := (Nat.repr n).data

/-- `attrib_from_csv`: run the read loop, then project the dictionary into a
configuration record through the attribute-name table.  The function does not
distinguish input-role from output-role metadata; output resolutions land in
`input_res_x/y` and output frame names in `input_frame_names`, exactly as in
the source. -/
def attrib_from_csv (st : IStream) : Except PErr ppf_test_config := do
  let dict := (runParse st).1.dict
  let rx ← dictGetI dict (metadata_attributes .res_x) 0
  let ry ← dictGetI dict (metadata_attributes .res_y) 0
  let sb ← dictGetF dict (metadata_attributes .stereo_baseline) 0
  let du ← dictGetF dict (metadata_attributes .depth_units) 0
  let fl ← dictGetF dict (metadata_attributes .focal_length) 0
  let ds ← dictGetI dict (metadata_attributes .downscale) 1
  let sa ← dictGetF dict (metadata_attributes .spat_alpha) 0
  let sd ← dictGetI dict (metadata_attributes .spat_delta) 0
  let si ← dictGetI dict (metadata_attributes .spat_iter) 0
  let ta ← dictGetF dict (metadata_attributes .temp_alpha) 0
  let td ← dictGetI dict (metadata_attributes .temp_delta) 0
  let tp ← dictGetI dict (metadata_attributes .temp_persist) 0
  let hf ← dictGetI dict (metadata_attributes .holes_fill) 0
  let fssI ← dictGetI dict (metadata_attributes .frames_sequence_size) 0
  let fss := toU64 fssI
  if fss = 0 then .error .requireFramesSequenceSize
  else do
    let names ← (List.range fss).mapM (fun i =>
      match dictLookup dict (natChars i) with
      | some v => Except.ok (v ++ ".raw".data)
      | none => Except.error PErr.frameNameMissing)
    .ok { name := [],
          spatial_filter := dictContains dict (metadata_attributes .spat_filter),
          spatial_alpha := sa, spatial_delta := toU8 sd, spatial_iterations := si,
          temporal_filter := dictContains dict (metadata_attributes .temp_filter),
          temporal_alpha := ta, temporal_delta := toU8 td, temporal_persistence := toU8 tp,
          holes_filter := dictContains dict (metadata_attributes .holes_filter),
          holes_filling_mode := hf, downsample_scale := ds,
          depth_units := du, stereo_baseline := sb, focal_length := fl,
          input_res_x := toU32 rx, input_res_y := toU32 ry,
          output_res_x := 0, output_res_y := 0,
          frames_sequence_size := fss,
          input_frame_names := names, output_frame_names := [],
          input_frames := [], output_frames := [] }

/-! ## File system model and `load_test_configuration` -/

/-- File system collaborator: the resolved temp-folder prefix and the files
present, keyed by full path (file bytes modelled as characters). -/
structure FS where
  folder : List Char
  files : List (List Char × List Char)

def fsLookup : List (List Char × List Char) → List Char → Option (List Char)
  | [], _ => none
  | (k, v) :: r, p => if k = p then some v else fsLookup r p

/-- The `file_exists` collaborator. -/
def fileExists (fs : FS) (p : List Char) : Bool := (fsLookup fs.files p).isSome

/-- Opening a file for the CSV parser: a missing file behaves like an
`std::ifstream` that failed to open (all reads fail). -/
def readStream (fs : FS) (p : List Char) : IStream :=
  match fsLookup fs.files p with
  | some cs => ⟨cs, false, false⟩
  | none => ⟨[], false, true⟩

/-- Fatal outcomes of `load_test_configuration`. -/
inductive LoadErr where
  | parse (e : PErr)
  | binaryReadFailure
  | frameIndexOutOfRange
  | requireFailed (check : String)
deriving DecidableEq

/-- `load_from_binary`: the whole file as a byte buffer; on a missing file the
C++ code would compute a huge size from `tellg() == -1` and die allocating,
modelled as a fatal error. -/
def load_from_binary (fs : FS) (p : List Char) : Except LoadErr (List Char) :=
  match fsLookup fs.files p with
  | some cs => .ok cs
  | none => .error .binaryReadFailure

/-- The `_padded_width`/`_padded_height` computation of the validator:
`uint16_t(input_dim / downsample_scale) + 3` — note that the truncation of
the quotient to 16 bits happens before the `+ 3` — then `/= 4; *= 4` in
(nonnegative) `int` arithmetic; the division converts `downsample_scale` to
`uint32_t`. -/
def padded_dim (dim : Nat) (scale : Int) : Nat :=
  ((dim / toU32 scale) % 2 ^ 16 + 3) / 4 * 4

/-- The full `REQUIRE` cascade of `load_test_configuration`, in source order,
as (name-of-check, does-it-pass) pairs.  Blocks guarded by a filter toggle
are present only when the toggle is set. -/
def validationChecks (c : ppf_test_config) : List (String × Bool) :=
  [("output_res_x == _padded_width", c.output_res_x == padded_dim c.input_res_x c.downsample_scale),
   ("output_res_y == _padded_height", c.output_res_y == padded_dim c.input_res_y c.downsample_scale),
   ("input_res_x > 0", decide (0 < c.input_res_x)),
   ("input_res_y > 0", decide (0 < c.input_res_y)),
   ("output_res_x > 0", decide (0 < c.output_res_x)),
   ("output_res_y > 0", decide (0 < c.output_res_y)),
   ("fabs(stereo_baseline) > 0", ratLtB 0 (ratAbs c.stereo_baseline)),
   ("depth_units > 0", ratLtB 0 c.depth_units),
   ("focal_length > 0", ratLtB 0 c.focal_length),
   ("frames_sequence_size > 0", decide (0 < c.frames_sequence_size))]
  ++ (List.range c.frames_sequence_size).flatMap (fun i =>
    [("input_res_x * input_res_y * 2 == _input_frames[i].size()",
       (c.input_res_x * c.input_res_y * 2) % 2 ^ 32 == ((c.input_frames.get? i).getD []).length),
     ("output_res_x * output_res_y * 2 == _output_frames[i].size()",
       (c.output_res_x * c.output_res_y * 2) % 2 ^ 32 == ((c.output_frames.get? i).getD []).length)])
  ++ (if c.spatial_filter then
       [("spatial_alpha >= 0.25f", ratLeB (mkRat 1 4) c.spatial_alpha),
        ("spatial_alpha <= 1.f", ratLeB c.spatial_alpha 1),
        ("spatial_delta >= 1", decide (1 ≤ c.spatial_delta)),
        ("spatial_delta <= 50", decide (c.spatial_delta ≤ 50)),
        ("spatial_iterations >= 1", decide ((1 : Int) ≤ c.spatial_iterations)),
        ("spatial_iterations <= 5", decide (c.spatial_iterations ≤ (5 : Int)))]
      else [])
  ++ (if c.temporal_filter then
       [("temporal_alpha >= 0.f", ratLeB 0 c.temporal_alpha),
        ("temporal_alpha <= 1.f", ratLeB c.temporal_alpha 1),
        ("temporal_delta >= 1", decide (1 ≤ c.temporal_delta)),
        ("temporal_delta <= 100", decide (c.temporal_delta ≤ 100)),
        ("temporal_persistence >= 0", decide (0 ≤ c.temporal_persistence)),
        ("temporal_persistence <= 8", decide (c.temporal_persistence ≤ 8))]
      else [])
  ++ (if c.holes_filter then
       [("holes_filling_mode >= 0", decide ((0 : Int) ≤ c.holes_filling_mode)),
        ("holes_filling_mode <= 2", decide (c.holes_filling_mode ≤ (2 : Int)))]
      else [])

/-- The cascade under `REQUIRE` semantics: the first failing check aborts the
test (the macro throws), so it reports at most the first failing check. -/
def runValidation (c : ppf_test_config) : Option String :=
  ((validationChecks c).find? (fun p => !p.2)).map (fun p => p.1)

/-- Every condition of the cascade that `c` actually violates. -/
def violatedChecks (c : ppf_test_config) : List String :=
  ((validationChecks c).filter (fun p => !p.2)).map (fun p => p.1)

/-- The merged configuration assembled from the input and output metadata
records plus the prefetched frame buffers.  The caller record is `reset()`
and then every field that `reset` had kept is overwritten, so the merge is
independent of the caller record. -/
def mergeCfg (test_name : List Char) (im om : ppf_test_config)
    (inFrames outFrames : List (List Char)) : ppf_test_config :=
  { name := test_name,
    frames_sequence_size := im.frames_sequence_size,
    input_frame_names := im.input_frame_names,
    output_frame_names := om.input_frame_names,
    input_frames := inFrames,
    output_frames := outFrames,
    input_res_x := im.input_res_x,
    input_res_y := im.input_res_y,
    output_res_x := om.input_res_x,
    output_res_y := om.input_res_y,
    depth_units := im.depth_units,
    focal_length := im.focal_length,
    stereo_baseline := ratMul im.stereo_baseline 1000,
    downsample_scale := om.downsample_scale,
    spatial_filter := om.spatial_filter,
    spatial_alpha := om.spatial_alpha,
    spatial_delta := om.spatial_delta,
    spatial_iterations := om.spatial_iterations,
    holes_filter := om.holes_filter,
    holes_filling_mode := om.holes_filling_mode,
    temporal_filter := om.temporal_filter,
    temporal_alpha := om.temporal_alpha,
    temporal_delta := om.temporal_delta,
    temporal_persistence := om.temporal_persistence }

/-- Prefetch of the frame buffers named by the metadata, in index order
(out-of-range name indices model the vector indexing the C++ code would do
past the end of a shorter name list). -/
def fetchFrames (fs : FS) (names : List (List Char)) (count : Nat) :
    Except LoadErr (List (List Char)) :=
  (List.range count).mapM (fun i =>
    match names.get? i with
    | none => .error .frameIndexOutOfRange
    | some nm => load_from_binary fs (fs.folder ++ nm))

/-- The suffixes of the four required fixture files, in the iteration order of
the `test_file_names` map (`std::map` iterates keys in sorted order:
Input_metadata, Input_pixels, Output_metadata, Output_pixels). -/
def requiredSuffixes : List (List Char) :=
  [".Input.csv".data, ".Input.raw".data, ".Output.csv".data, ".Output.raw".data]

/-- The paths of the required files that are absent. -/
def missingFiles (fs : FS) (test_name : List Char) : List (List Char) :=
  (requiredSuffixes.map (fun sfx => fs.folder ++ test_name ++ ".0".data ++ sfx)).filter
    (fun p => !fileExists fs p)

/-- The `WARN` message issued per missing required file. -/
def warnMissing (p : List Char) : List Char :=
  "A required test file is not present: ".data ++ p ++ " .Test will be skipped".data

/-- Parsing, merging and prefetching part of `load_test_configuration`
(everything between the reset of the caller record and the sanity checks). -/
def loadMerged (fs : FS) (test_name : List Char) : Except LoadErr ppf_test_config := do
  let base := fs.folder ++ test_name ++ ".0".data
  let im ← (attrib_from_csv (readStream fs (base ++ ".Input.csv".data))).mapError LoadErr.parse
  let om ← (attrib_from_csv (readStream fs (base ++ ".Output.csv".data))).mapError LoadErr.parse
  let inF ← fetchFrames fs im.input_frame_names im.frames_sequence_size
  let outF ← fetchFrames fs om.input_frame_names im.frames_sequence_size
  .ok (mergeCfg test_name im om inF outF)

instance {ε α : Type} [DecidableEq ε] [DecidableEq α] : DecidableEq (Except ε α) := fun x y =>
  match x, y with
  | .error a, .error b =>
    if h : a = b then .isTrue (congrArg Except.error h)
    else .isFalse (fun hh => h (Except.error.inj hh))
  | .ok a, .ok b =>
    if h : a = b then .isTrue (congrArg Except.ok h)
    else .isFalse (fun hh => h (Except.ok.inj hh))
  | .error _, .ok _ => .isFalse (fun hh => Except.noConfusion hh)
  | .ok _, .error _ => .isFalse (fun hh => Except.noConfusion hh)

/-- Result of `load_test_configuration`: the `WARN` diagnostics issued and
either a fatal failure, or the `(bool, config)` outcome — `false` means the
fixture was skipped and the caller record untouched. -/
structure LoadResult where
  warnings : List (List Char)
  outcome : Except LoadErr (Bool × ppf_test_config)
deriving DecidableEq

/-- `load_test_configuration`: check the four required files (warning for each
absent one and skipping if any is), parse and merge both metadata files,
prefetch the frames, and run the `REQUIRE` cascade. -/
def load_test_configuration (fs : FS) (test_name : List Char) (tc0 : ppf_test_config) :
    LoadResult :=
  if (missingFiles fs test_name).isEmpty then
    match loadMerged fs test_name with
    | .error e => { warnings := [], outcome := .error e }
    | .ok cfg =>
      let warns := if 50 < cfg.frames_sequence_size
        then ["The input sequence is too long".data] else []
      match runValidation cfg with
      | some n => { warnings := warns, outcome := .error (.requireFailed n) }
      | none => { warnings := warns, outcome := .ok (true, cfg) }
  else
    { warnings := (missingFiles fs test_name).map warnMissing,
      outcome := .ok (false, tc0) }

/-- Outcome of a load started from a freshly constructed caller record. -/
def loadOutcomeOf (fs : FS) (test_name : List Char) : Except LoadErr (Bool × ppf_test_config) :=
  (load_test_configuration fs test_name (ppf_default 0)).outcome

/-- The configuration a successful load returns (junk on a failed load). -/
def loadedCfg (fs : FS) (test_name : List Char) : ppf_test_config :=
  match loadOutcomeOf fs test_name with
  | .ok (_, c) => c
  | .error _ => ppf_default 0

/-- The merged configuration as it stands when the validation cascade starts
(junk when the load fails before that point). -/
def mergedCfgOf (fs : FS) (test_name : List Char) : ppf_test_config :=
  match loadMerged fs test_name with
  | .ok c => c
  | .error _ => ppf_default 0

/-! ## The diff profiler (`profile_diffs`) -/

/-- Everything `profile_diffs` computes and records for one call. -/
structure DiffProfile where
  artifact : List ℚ
  pixels : Nat
  mean : ℚ
  non_identical_count : Nat
  first_non_identical_index : Int
  first_difference : ℚ
  max_val : ℚ
  variance : ℚ
  std_check : Bool
  outlier_check : Bool
  recorded : List (String × Bool)
  verdict : Bool
deriving DecidableEq

/-- `std::max_element` value on a nonempty list (0 for the empty list, as in
the `max != distances.end() ? *max : 0` fallback). -/
def listMaxQ : List ℚ → ℚ
  | [] => 0
  | x :: xs => xs.foldl (fun a b => if ratLtB a b then b else a) x

/-- The computations of one `profile_diffs` call on a (nonempty) sequence. -/
def profileOf (l : List ℚ) (max_allowed_std outlier : ℚ) : DiffProfile :=
  let n := l.length
  let mean := ratDiv (l.foldl ratAdd 0) (mkRat (n : Int) 1)
  let nzc := n - l.count 0
  let fidx : Int :=
    match l.findIdx? (fun x => decide (x ≠ 0)) with
    | some i => (i : Int)
    | none => -1
  let fdiff :=
    match l.find? (fun x => decide (x ≠ 0)) with
    | some v => v
    | none => 0
  let mx := listMaxQ l
  let e := l.foldl (fun a x => ratAdd a (ratMul (ratSub x mean) (ratSub x mean))) 0
  let inverse := ratDiv 1 (mkRat (n : Int) 1)
  let variance := ratMul inverse e
  let stdC := ratLeB 0 max_allowed_std && ratLeB variance (ratMul max_allowed_std max_allowed_std)
  let outC := ratLeB (ratAbs mx) outlier
  { artifact := l, pixels := n, mean := mean, non_identical_count := nzc,
    first_non_identical_index := fidx, first_difference := fdiff, max_val := mx,
    variance := variance, std_check := stdC, outlier_check := outC,
    recorded := [("standard_deviation <= max_allowed_std", stdC),
                 ("fabs(max_val) <= outlier", outC)],
    verdict := outC && stdC }

/-- `profile_diffs`.  The raw sequence is persisted (the `artifact` field),
the empty sequence is the fatal `REQUIRE(!distances.empty())` precondition
(`none`), the descriptive statistics are computed, the two threshold checks
are evaluated and both are recorded with continue-on-failure semantics
(`recorded` always holds both), and the verdict is their conjunction.
The code compares `sqrt(inverse * e) <= max_allowed_std`; `std_check` is the
equivalent square-free test `0 <= max_allowed_std` and
`variance <= max_allowed_std * max_allowed_std` (the equivalence with the
square-root comparison is proved where the claim about the verdict is
settled). -/
def profile_diffs (distances : List ℚ) (max_allowed_std outlier : ℚ) : Option DiffProfile :=
  if distances.isEmpty then none
  else some (profileOf distances max_allowed_std outlier)

/-! ## Formulas written from the wording of the specification -/

/-- Modelled from the spec: the expected-output-dimension formula as the
claims word it — `floor((input_dim / downsample_scale + 3) / 4) * 4` with
plain integer arithmetic and no 16-bit truncation. -/
def spec_expected_dim (dim scale : Nat) : Nat := (dim / scale + 3) / 4 * 4

/-- Modelled from the spec: `round_up_to_4 n` is the smallest multiple of 4
that is at least `n` (characterised by `round_up_to_4_spec`). -/
def round_up_to_4 (n : Nat) : Nat := (n + 3) / 4 * 4

/-! ## Concrete fixtures used by witnesses and counterexamples -/

/-- A small, fully valid fixture: 4x4 input, no downsampling, no filters,
stereo baseline 0.05 m. -/
def fsSmall : FS :=
  { folder := [],
    files :=
      [("T.0.Input.csv".data,
        "Resolution_x,4\nResolution_y,4\nFocal Length,1\nDepth Units,0.001\nStereo Baseline,0.05\nFrames sequence length,1\n0,TIn\n".data),
       ("T.0.Input.raw".data, "T-in-first-frame-placeholder".data),
       ("T.0.Output.csv".data,
        "Resolution_x,4\nResolution_y,4\nScale,1\nFrames sequence length,1\n0,TOut\n".data),
       ("T.0.Output.raw".data, "T-out-first-frame-placeholder".data),
       ("TIn.raw".data, "0123456789abcdef0123456789abcdef".data),
       ("TOut.raw".data, "0123456789abcdef0123456789abcdef".data)] }

/-- A valid fixture whose width quotient exceeds 2^16: `Resolution_x`
-2147483644 becomes 2147483652 as `uint32_t`; truncated to 16 bits the
quotient is 4, so the declared output width 4 is accepted, and the input
buffer length check uses `uint32_t` arithmetic
(2147483652 * 1 * 2 mod 2^32 = 8). -/
def fsBig : FS :=
  { folder := [],
    files :=
      [("B.0.Input.csv".data,
        "Resolution_x,-2147483644\nResolution_y,1\nFocal Length,1\nDepth Units,1\nStereo Baseline,7\nFrames sequence length,1\n0,BIn\n".data),
       ("B.0.Input.raw".data, "B-in-first-frame-placeholder".data),
       ("B.0.Output.csv".data,
        "Resolution_x,4\nResolution_y,4\nScale,1\nFrames sequence length,1\n0,BOut\n".data),
       ("B.0.Output.raw".data, "B-out-first-frame-placeholder".data),
       ("BIn.raw".data, "01234567".data),
       ("BOut.raw".data, "0123456789abcdef0123456789abcdef".data)] }

/-- A fixture that violates two independent fatal validation conditions: the
declared output width 4 differs from the padded width 8 computed from input
width 5 (geometry mismatch), and `Depth Units` is 0 (calibration invalid).
Everything else, including both buffer-size checks, passes. -/
def fsBad : FS :=
  { folder := [],
    files :=
      [("C.0.Input.csv".data,
        "Resolution_x,5\nResolution_y,4\nFocal Length,1\nDepth Units,0\nStereo Baseline,7\nFrames sequence length,1\n0,CIn\n".data),
       ("C.0.Input.raw".data, "C-in-first-frame-placeholder".data),
       ("C.0.Output.csv".data,
        "Resolution_x,4\nResolution_y,4\nScale,1\nFrames sequence length,1\n0,COut\n".data),
       ("C.0.Output.raw".data, "C-out-first-frame-placeholder".data),
       ("CIn.raw".data, "0123456789abcdef0123456789abcdef01234567".data),
       ("COut.raw".data, "0123456789abcdef0123456789abcdef".data)] }

/-- An empty file system: every required fixture file is missing. -/
def fsNone : FS := { folder := [], files := [] }

/-- A file whose first two lines are malformed (no comma) and are followed by
a well-formed `key,value` line. -/
def twoBadLinesFile : List Char := "x\ny\nb,2\n".data

/-- A record in a non-default state: nonzero calibration values, a sequence
size of 7 and a stale frame-name list. -/
def staleRecord : ppf_test_config :=
  { ppf_default 0 with
    frames_sequence_size := 7, depth_units := 5, stereo_baseline := 3,
    focal_length := 2, input_frame_names := ["stale".data] }

/-- A configuration whose width quotient is 65600 >= 2^16 (used for the
16-bit-truncation claim); with 65600 mod 2^16 = 64 the padded width is 64. -/
def bigQuotientCfg : ppf_test_config :=
  { ppf_default 0 with
    input_res_x := 65600, input_res_y := 1, downsample_scale := 1,
    output_res_x := 64, output_res_y := 4, frames_sequence_size := 0 }

/-! ## Lemmas about the embedding -/

lemma ratMul_eq (a b : ℚ) : ratMul a b = a * b := by
  rw [ratMul, Rat.mkRat_eq_div]
  push_cast
  conv_rhs => rw [← Rat.num_div_den a, ← Rat.num_div_den b]
  rw [div_mul_div_comm]

lemma ratAdd_eq (a b : ℚ) : ratAdd a b = a + b := by
  rw [ratAdd, Rat.mkRat_eq_div]
  push_cast
  conv_rhs => rw [← Rat.num_div_den a, ← Rat.num_div_den b]
  rw [div_add_div _ _ (by positivity : ((a.den : ℚ)) ≠ 0) (by positivity : ((b.den : ℚ)) ≠ 0)]
  ring_nf

lemma ratSub_eq (a b : ℚ) : ratSub a b = a - b := by
  rw [ratSub, Rat.mkRat_eq_div]
  push_cast
  conv_rhs => rw [← Rat.num_div_den a, ← Rat.num_div_den b]
  rw [div_sub_div _ _ (by positivity : ((a.den : ℚ)) ≠ 0) (by positivity : ((b.den : ℚ)) ≠ 0)]
  ring_nf

lemma ratInv_eq (b : ℚ) : ratInv b = b⁻¹ := by
  rw [ratInv, Rat.divInt_eq_div]
  conv_rhs => rw [← Rat.num_div_den b]
  rw [inv_div]
  push_cast
  rfl

lemma ratDiv_eq (a b : ℚ) : ratDiv a b = a / b := by
  rw [ratDiv, ratMul_eq, ratInv_eq, div_eq_mul_inv]

lemma ratAbs_eq (a : ℚ) : ratAbs a = |a| := by
  rw [ratAbs, Rat.mkRat_eq_div, Int.cast_natAbs]
  conv_rhs => rw [← Rat.num_div_den a]
  rw [abs_div, abs_of_nonneg (by positivity : (0:ℚ) ≤ (a.den : ℚ))]
  norm_cast

lemma ratLeB_eq (a b : ℚ) : ratLeB a b = true ↔ a ≤ b := by
  rw [ratLeB, decide_eq_true_iff]
  exact Rat.le_def.symm

lemma ratLtB_eq (a b : ℚ) : ratLtB a b = true ↔ a < b := by
  rw [ratLtB, decide_eq_true_iff]
  exact Rat.lt_def.symm

lemma splitD_some_lt (d : Char) :
    ∀ (cs pre rest : List Char), splitD cs d = (pre, some rest) → rest.length < cs.length := by
  intro cs
  induction cs with
  | nil =>
    intro pre rest h
    simp [splitD] at h
  | cons c cs ih =>
    intro pre rest h
    by_cases hc : c = d
    · rw [splitD] at h
      simp [hc] at h
      simp [← h.2]
    · rw [splitD] at h
      simp [hc] at h
      rcases hsd : splitD cs d with ⟨p2, r2⟩
      rw [hsd] at h
      rcases r2 with _ | r2
      · exact absurd h.2 (by simp)
      · have hr : rest = r2 := by
          have := h.2
          simpa using this.symm
        have := ih p2 r2 hsd
        rw [hr]
        simp
        omega

/-- Exhaustive description of the four possible outcomes of a `getline` call. -/
lemma getlineD_cases (s : IStream) (d : Char) (t : List Char) :
    ((s.eofbit || s.failbit) = true ∧ getlineD s d t = ({ s with failbit := true }, t))
    ∨ ((s.eofbit || s.failbit) = false ∧ s.rem = [] ∧
        getlineD s d t = (⟨[], true, true⟩, []))
    ∨ ((s.eofbit || s.failbit) = false ∧ s.rem ≠ [] ∧
        ∃ pre rest, splitD s.rem d = (pre, some rest) ∧
        getlineD s d t = (⟨rest, s.eofbit, s.failbit⟩, pre))
    ∨ ((s.eofbit || s.failbit) = false ∧ s.rem ≠ [] ∧
        ∃ pre, splitD s.rem d = (pre, none) ∧
        getlineD s d t = (⟨[], true, false⟩, pre)) := by
  by_cases hb : (s.eofbit || s.failbit) = true
  · left
    exact ⟨hb, by rw [getlineD]; simp [hb]⟩
  · have hb' : (s.eofbit || s.failbit) = false := by simpa using hb
    rcases hrem : s.rem with _ | ⟨c, cs⟩
    · right; left
      refine ⟨hb', rfl, ?_⟩
      rw [getlineD]
      simp [hb', hrem]
    · rcases hsd : splitD s.rem d with ⟨pre, orest⟩
      rw [hrem] at hsd
      rcases orest with _ | rest
      · right; right; right
        refine ⟨hb', by simp, pre, hsd, ?_⟩
        rw [getlineD]
        simp [hb', hrem, hsd]
      · right; right; left
        refine ⟨hb', by simp, pre, rest, hsd, ?_⟩
        rw [getlineD]
        simp [hb', hrem, hsd]

/-- A `getline` on a stream whose `failbit` is already set changes nothing but
the `failbit` (which stays set) and leaves the target untouched. -/
lemma getlineD_sentry (s : IStream) (d : Char) (t : List Char) (h : s.failbit = true) :
    getlineD s d t = ({ s with failbit := true }, t) := by
  rw [getlineD]
  simp [h]

lemma getlineD_inv (s : IStream) (d : Char) (t : List Char) (h : SInv s) :
    SInv (getlineD s d t).1 := by
  rcases getlineD_cases s d t with ⟨hb, he⟩ | ⟨hb, hr, he⟩ |
    ⟨hb, hr, pre, rest, hsd, he⟩ | ⟨hb, hr, pre, hsd, he⟩
  · rw [he]
    intro _
    exact h hb
  · rw [he]
    intro _
    rfl
  · rw [he]
    intro hbits
    simp at hb
    simp [hb.1, hb.2] at hbits
  · rw [he]
    intro _
    rfl

lemma getlineD_fail_rem (s : IStream) (d : Char) (t : List Char) (h : SInv s) :
    (getlineD s d t).1.failbit = true → (getlineD s d t).1.rem = [] :=
  fun hf => getlineD_inv s d t h (by simp [hf])

lemma getlineD_len_le (s : IStream) (d : Char) (t : List Char) :
    (getlineD s d t).1.rem.length ≤ s.rem.length := by
  rcases getlineD_cases s d t with ⟨hb, he⟩ | ⟨hb, hr, he⟩ |
    ⟨hb, hr, pre, rest, hsd, he⟩ | ⟨hb, hr, pre, hsd, he⟩
  · rw [he]
  · rw [he]
    simp [hr]
  · rw [he]
    have := splitD_some_lt d _ _ _ hsd
    simp
    omega
  · rw [he]
    simp

lemma getlineD_ok (s : IStream) (d : Char) (t : List Char) :
    (getlineD s d t).1.failbit = false →
    (getlineD s d t).1.rem.length < s.rem.length ∧ s.failbit = false := by
  rcases getlineD_cases s d t with ⟨hb, he⟩ | ⟨hb, hr, he⟩ |
    ⟨hb, hr, pre, rest, hsd, he⟩ | ⟨hb, hr, pre, hsd, he⟩
  · rw [he]
    intro hf
    simp at hf
  · rw [he]
    intro hf
    simp at hf
  · rw [he]
    intro _
    simp at hb
    refine ⟨?_, hb.2⟩
    have := splitD_some_lt d _ _ _ hsd
    simpa using this
  · rw [he]
    intro _
    simp at hb
    refine ⟨?_, hb.2⟩
    simp
    exact List.length_pos.mpr hr

lemma parseIter_stream (st : PState) :
    (parseIter st).1.stream = (getlineD (getlineD st.stream ',' st.key).1 '\n' st.value).1 := rfl

lemma parseIter_invalid (st : PState) :
    (parseIter st).1.invalid =
      if (getlineD st.stream ',' st.key).1.failbit then st.invalid + 1 else st.invalid := rfl

lemma parseIter_brk (st : PState) :
    (parseIter st).2 =
      decide ((if (getlineD st.stream ',' st.key).1.failbit then st.invalid + 1
               else st.invalid) > 1) := rfl

/-- One iteration preserves the invariant; when it breaks the loop it does so
with `invalid_line = 2` and the input fully consumed, and when it does not
break, the termination measure strictly decreases. -/
lemma parseIter_spec (st : PState) (hInv : PInv st) (hi : st.invalid ≤ 1) :
    PInv (parseIter st).1 ∧
    ((parseIter st).2 = true →
      (parseIter st).1.invalid = 2 ∧ (parseIter st).1.stream.rem = []) ∧
    ((parseIter st).2 = false →
      (parseIter st).1.invalid ≤ 1 ∧ pMeasure (parseIter st).1 < pMeasure st) := by
  have hInv1 := getlineD_inv st.stream ',' st.key hInv
  have hInv2 := getlineD_inv (getlineD st.stream ',' st.key).1 '\n' st.value hInv1
  refine ⟨hInv2, ?_, ?_⟩
  · intro hb
    rw [parseIter_brk] at hb
    cases hf1 : (getlineD st.stream ',' st.key).1.failbit with
    | false =>
      rw [hf1] at hb
      simp at hb
      omega
    | true =>
      rw [hf1] at hb
      simp at hb
      have h11 : st.invalid = 1 := by omega
      have hrem1 := getlineD_fail_rem st.stream ',' st.key hInv hf1
      constructor
      · rw [parseIter_invalid, hf1, h11]
        simp
      · rw [parseIter_stream, getlineD_sentry _ '\n' st.value hf1]
        exact hrem1
  · intro hb
    rw [parseIter_brk] at hb
    cases hf1 : (getlineD st.stream ',' st.key).1.failbit with
    | true =>
      rw [hf1] at hb
      simp at hb
      have h00 : st.invalid = 0 := by omega
      have hrem1 := getlineD_fail_rem st.stream ',' st.key hInv hf1
      refine ⟨by rw [parseIter_invalid, hf1, h00]; simp, ?_⟩
      rw [pMeasure, pMeasure, parseIter_stream, parseIter_invalid,
          getlineD_sentry _ '\n' st.value hf1, hf1, h00]
      simp [hrem1]
      cases hsf : st.stream.failbit
      all_goals simp
    | false =>
      have hok := getlineD_ok st.stream ',' st.key hf1
      have hlen2 := getlineD_len_le (getlineD st.stream ',' st.key).1 '\n' st.value
      refine ⟨by rw [parseIter_invalid, hf1]; simpa using hi, ?_⟩
      rw [pMeasure, pMeasure, parseIter_stream, parseIter_invalid, hf1]
      have hfb0 : st.stream.failbit = false := hok.2
      rw [hfb0]
      have hlt : (getlineD (getlineD st.stream ',' st.key).1 '\n' st.value).1.rem.length
          < st.stream.rem.length := lt_of_le_of_lt hlen2 hok.1
      cases hfb2 : (getlineD (getlineD st.stream ',' st.key).1 '\n' st.value).1.failbit
      all_goals simp
      all_goals omega

/-- With enough fuel the read loop always exits through its break test, with
`invalid_line` exactly 2 and the entire input consumed. -/
lemma parseLoop_total : ∀ (fuel : Nat) (st : PState), PInv st → st.invalid ≤ 1 →
    pMeasure st ≤ fuel →
    (parseLoop fuel st).2 = false ∧ (parseLoop fuel st).1.invalid = 2 ∧
    (parseLoop fuel st).1.stream.rem = [] := by
  intro fuel
  induction fuel with
  | zero =>
    intro st _ _ hm
    exfalso
    rw [pMeasure] at hm
    omega
  | succ f ih =>
    intro st hInv hi hm
    have hspec := parseIter_spec st hInv hi
    rw [parseLoop]
    cases hb : (parseIter st).2 with
    | true =>
      simp [hb]
      exact hspec.2.1 hb
    | false =>
      simp [hb]
      have h2 := hspec.2.2 hb
      exact ih (parseIter st).1 hspec.1 h2.1 (by omega)

/-- The read loop of `attrib_from_csv`, run on any file contents, never stops
before the end of the input and always stops through the `invalid_line > 1`
break with `invalid_line = 2`. -/
lemma runParse_spec (cs : List Char) :
    (runParse ⟨cs, false, false⟩).2 = false ∧
    (runParse ⟨cs, false, false⟩).1.invalid = 2 ∧
    (runParse ⟨cs, false, false⟩).1.stream.rem = [] := by
  apply parseLoop_total
  · intro h
    simp [initPState] at h
  · simp [initPState]
  · rw [pMeasure, parseFuel, initPState]
    simp

lemma round_up_to_4_spec (n : Nat) :
    n ≤ round_up_to_4 n ∧ 4 ∣ round_up_to_4 n ∧
    ∀ m, 4 ∣ m → n ≤ m → round_up_to_4 n ≤ m := by
  refine ⟨by rw [round_up_to_4]; omega, ⟨(n + 3) / 4, by rw [round_up_to_4]; ring⟩, ?_⟩
  intro m hm hnm
  obtain ⟨j, rfl⟩ := hm
  rw [round_up_to_4]
  omega

/-! ## Lemmas about the validation cascade and the loader -/

lemma find?_filter_head {α : Type} (p : α → Bool) (l : List α) :
    l.find? p = (l.filter p).head? := by
  induction l with
  | nil => rfl
  | cons a l ih =>
    by_cases h : p a
    · simp [List.find?_cons, List.filter_cons, h]
    · simp only [List.find?_cons, List.filter_cons, h]
      rw [ih]
      simp [h]

/-- The `REQUIRE` cascade reports exactly the first violated condition (and
nothing when no condition is violated). -/
lemma runValidation_eq_head (c : ppf_test_config) :
    runValidation c = (violatedChecks c).head? := by
  rw [runValidation, violatedChecks, find?_filter_head]
  cases (validationChecks c).filter (fun p => !p.2) with
  | nil => rfl
  | cons a l => rfl

/-- A passed validation means every check in the cascade holds. -/
lemma validation_pass (c : ppf_test_config) (h : runValidation c = none) :
    ∀ p ∈ validationChecks c, p.2 = true := by
  intro p hp
  have h2 : (validationChecks c).find? (fun q => !q.2) = none := by
    rcases hf : (validationChecks c).find? (fun q => !q.2) with _ | q
    · exact hf
    · rw [runValidation, hf] at h
      simp at h
  rw [List.find?_eq_none] at h2
  have := h2 p hp
  simpa using this

/-- Inversion of a successful load: the merged configuration is the returned
one and its validation passed. -/
lemma load_ok_true (fs : FS) (tn : List Char) (t cfg : ppf_test_config)
    (h : (load_test_configuration fs tn t).outcome = .ok (true, cfg)) :
    loadMerged fs tn = .ok cfg ∧ runValidation cfg = none := by
  rw [load_test_configuration] at h
  split at h
  · rcases hm : loadMerged fs tn with e | c
    · rw [hm] at h
      simp at h
    · rw [hm] at h
      rcases hv : runValidation c with _ | n
      · simp [hv] at h
        subst h
        exact ⟨rfl, hv⟩
      · simp [hv] at h
  · simp at h

/-- Inversion of the parse-merge-prefetch stage. -/
lemma loadMerged_ok (fs : FS) (tn : List Char) (cfg : ppf_test_config)
    (h : loadMerged fs tn = .ok cfg) :
    ∃ im om inF outF,
      attrib_from_csv (readStream fs (fs.folder ++ tn ++ ".0".data ++ ".Input.csv".data))
        = .ok im ∧
      attrib_from_csv (readStream fs (fs.folder ++ tn ++ ".0".data ++ ".Output.csv".data))
        = .ok om ∧
      cfg = mergeCfg tn im om inF outF := by
  rw [loadMerged] at h
  rcases h1 : attrib_from_csv (readStream fs (fs.folder ++ tn ++ ".0".data ++ ".Input.csv".data))
    with e | im
  · rw [h1] at h
    simp [Except.mapError, Bind.bind, Except.bind] at h
  · rw [h1] at h
    simp only [Except.mapError, Bind.bind, Except.bind] at h
    rcases h2 : attrib_from_csv (readStream fs (fs.folder ++ tn ++ ".0".data ++ ".Output.csv".data))
      with e | om
    · rw [h2] at h
      simp [Except.mapError, Bind.bind, Except.bind] at h
    · rw [h2] at h
      simp only [Except.mapError, Bind.bind, Except.bind] at h
      rcases h3 : fetchFrames fs im.input_frame_names im.frames_sequence_size with e | inF
      · rw [h3] at h
        simp [Except.mapError, Bind.bind, Except.bind] at h
      · rw [h3] at h
        simp only [Except.mapError, Bind.bind, Except.bind] at h
        rcases h4 : fetchFrames fs om.input_frame_names im.frames_sequence_size with e | outF
        · rw [h4] at h
          simp [Except.mapError, Bind.bind, Except.bind] at h
        · rw [h4] at h
          simp only [Except.mapError, Bind.bind, Except.bind] at h
          refine ⟨im, om, inF, outF, rfl, rfl, ?_⟩
          injection h with h5
          exact h5.symm

/-- Geometry facts that hold for every configuration a successful load
returns: the declared output dimensions equal the padded dimensions computed
by the validator. -/
lemma accepted_geometry (fs : FS) (tn : List Char) (t cfg : ppf_test_config)
    (h : (load_test_configuration fs tn t).outcome = .ok (true, cfg)) :
    cfg.output_res_x = padded_dim cfg.input_res_x cfg.downsample_scale ∧
    cfg.output_res_y = padded_dim cfg.input_res_y cfg.downsample_scale := by
  obtain ⟨_, hv⟩ := load_ok_true fs tn t cfg h
  have hall := validation_pass cfg hv
  constructor
  · have h1 := hall ("output_res_x == _padded_width",
      cfg.output_res_x == padded_dim cfg.input_res_x cfg.downsample_scale)
      (by rw [validationChecks]; simp)
    simp at h1
    exact h1
  · have h1 := hall ("output_res_y == _padded_height",
      cfg.output_res_y == padded_dim cfg.input_res_y cfg.downsample_scale)
      (by rw [validationChecks]; simp)
    simp at h1
    exact h1

/-! ## Lemmas about the diff profiler -/

/-- For a nonnegative radicand, the comparison the code makes after taking
the square root is equivalent to the square-free comparison used in the
embedding. -/
lemma sqrt_le_iff_mul_self (v m : ℚ) (hv : 0 ≤ v) :
    (Real.sqrt (v : ℝ) ≤ (m : ℝ)) ↔ (0 ≤ m ∧ v ≤ m * m) := by
  constructor
  · intro h
    have h0 : (0:ℝ) ≤ Real.sqrt (v : ℝ) := Real.sqrt_nonneg _
    have hm : (0:ℝ) ≤ (m:ℝ) := le_trans h0 h
    refine ⟨by exact_mod_cast hm, ?_⟩
    have h2 := mul_self_le_mul_self h0 h
    rw [Real.mul_self_sqrt (by exact_mod_cast hv)] at h2
    exact_mod_cast h2
  · rintro ⟨hm, hvm⟩
    have h2 : Real.sqrt (v:ℝ) ≤ Real.sqrt ((m:ℝ) * (m:ℝ)) :=
      Real.sqrt_le_sqrt (by exact_mod_cast hvm)
    rwa [Real.sqrt_mul_self (by exact_mod_cast hm)] at h2

/-- The accumulated sum of squared deviations is nonnegative. -/
lemma foldl_sq_nonneg (m : ℚ) :
    ∀ (l : List ℚ) (a : ℚ), 0 ≤ a →
      0 ≤ l.foldl (fun u x => ratAdd u (ratMul (ratSub x m) (ratSub x m))) a := by
  intro l
  induction l with
  | nil =>
    intro a ha
    simpa using ha
  | cons x xs ih =>
    intro a ha
    rw [List.foldl_cons]
    apply ih
    rw [ratAdd_eq, ratMul_eq, ratSub_eq]
    nlinarith [sq_nonneg (x - m)]

/-- The fold used for `std::max_element` returns the seed or a list element. -/
lemma foldlMax_mem :
    ∀ (xs : List ℚ) (a : ℚ),
      xs.foldl (fun u v => if ratLtB u v then v else u) a = a ∨
      xs.foldl (fun u v => if ratLtB u v then v else u) a ∈ xs := by
  intro xs
  induction xs with
  | nil =>
    intro a
    left
    rfl
  | cons x xs ih =>
    intro a
    rw [List.foldl_cons]
    rcases ih (if ratLtB a x then x else a) with h | h
    · rw [h]
      by_cases hc : ratLtB a x = true
      · right
        simp [hc]
      · left
        simp [hc]
    · right
      exact List.mem_cons_of_mem _ h

/-- The fold used for `std::max_element` dominates its seed and every list
element. -/
lemma foldlMax_ge :
    ∀ (xs : List ℚ) (a : ℚ),
      a ≤ xs.foldl (fun u v => if ratLtB u v then v else u) a ∧
      ∀ x ∈ xs, x ≤ xs.foldl (fun u v => if ratLtB u v then v else u) a := by
  intro xs
  induction xs with
  | nil =>
    intro a
    exact ⟨le_refl a, by simp⟩
  | cons x xs ih =>
    intro a
    rw [List.foldl_cons]
    have hstep : a ≤ (if ratLtB a x then x else a) ∧ x ≤ (if ratLtB a x then x else a) := by
      by_cases hc : ratLtB a x = true
      · have := (ratLtB_eq a x).mp hc
        simp [hc]
        exact le_of_lt this
      · have hc' : ¬ (a < x) := fun hl => hc ((ratLtB_eq a x).mpr hl)
        simp [hc]
        exact le_of_not_lt hc'
    obtain ⟨ha, hall⟩ := ih (if ratLtB a x then x else a)
    refine ⟨le_trans hstep.1 ha, ?_⟩
    intro y hy
    rcases List.mem_cons.mp hy with rfl | hy'
    · exact le_trans hstep.2 ha
    · exact hall y hy'

/-- `listMaxQ` of a nonempty list is an element of the list. -/
lemma listMaxQ_mem (d0 : ℚ) (rest : List ℚ) : listMaxQ (d0 :: rest) ∈ d0 :: rest := by
  rw [listMaxQ]
  rcases foldlMax_mem rest d0 with h | h
  · rw [h]
    exact List.mem_cons_self _ _
  · exact List.mem_cons_of_mem _ h

/-- `listMaxQ` of a nonempty list dominates every element. -/
lemma listMaxQ_ge (d0 : ℚ) (rest : List ℚ) :
    ∀ x ∈ d0 :: rest, x ≤ listMaxQ (d0 :: rest) := by
  intro x hx
  rw [listMaxQ]
  obtain ⟨ha, hall⟩ := foldlMax_ge rest d0
  rcases List.mem_cons.mp hx with rfl | hx'
  · exact ha
  · exact hall x hx'

lemma profileOf_max (l : List ℚ) (m o : ℚ) : (profileOf l m o).max_val = listMaxQ l := rfl

lemma profileOf_variance (l : List ℚ) (m o : ℚ) :
    (profileOf l m o).variance =
      ratMul (ratDiv 1 (mkRat (l.length : Int) 1))
        (l.foldl (fun a x => ratAdd a (ratMul (ratSub x ((profileOf l m o).mean))
          (ratSub x ((profileOf l m o).mean)))) 0) := rfl

lemma profileOf_std_check (l : List ℚ) (m o : ℚ) :
    (profileOf l m o).std_check =
      (ratLeB 0 m && ratLeB ((profileOf l m o).variance) (ratMul m m)) := rfl

lemma profileOf_outlier_check (l : List ℚ) (m o : ℚ) :
    (profileOf l m o).outlier_check = ratLeB (ratAbs ((profileOf l m o).max_val)) o := rfl

/-- The population variance `inverse * e` computed by the profiler is
nonnegative. -/
lemma profileOf_variance_nonneg (l : List ℚ) (m o : ℚ) : 0 ≤ (profileOf l m o).variance := by
  rw [profileOf_variance, ratMul_eq, ratDiv_eq]
  apply mul_nonneg
  · have hmk : (mkRat (l.length : Int) 1) = ((l.length : Int) : ℚ) := by
      rw [Rat.mkRat_eq_div]
      simp
    rw [hmk]
    positivity
  · exact foldl_sq_nonneg _ l 0 (le_refl 0)

/-- The square-free check recorded by the embedding is equivalent to the
square-root comparison made by the code. -/
lemma profileOf_std_check_iff (l : List ℚ) (m o : ℚ) :
    (profileOf l m o).std_check = true ↔
      Real.sqrt (((profileOf l m o).variance : ℚ) : ℝ) ≤ (m : ℝ) := by
  rw [profileOf_std_check, Bool.and_eq_true, ratLeB_eq, ratLeB_eq, ratMul_eq,
    sqrt_le_iff_mul_self _ _ (profileOf_variance_nonneg l m o)]

lemma profileOf_outlier_check_iff (l : List ℚ) (m o : ℚ) :
    (profileOf l m o).outlier_check = true ↔ |(profileOf l m o).max_val| ≤ o := by
  rw [profileOf_outlier_check, ratLeB_eq, ratAbs_eq]

/-! ## Claims -/

set_option maxRecDepth 1000000

/-- C1 counterexample.  `twoBadLinesFile` is `"x\ny\nb,2\n"`: its first two
lines are malformed (no comma) and are followed by the well-formed line
`b,2`.  The claimed rule says parsing terminates as soon as the two
consecutive malformed lines are encountered, so nothing of the following
valid line would be parsed.  Instead, `getline(data, key, ',')` reads across
newlines until the next comma, so the parse absorbs both malformed lines
into the next key, stores the value `2` of the line after them under the key
`"x\ny\nb"`, and consumes the entire file. -/
theorem claim_C1_counterexample :
    dictLookup (runParse ⟨twoBadLinesFile, false, false⟩).1.dict ("x\ny\nb".data)
      = some ("2".data) ∧
    (runParse ⟨twoBadLinesFile, false, false⟩).1.stream.rem = [] := by
  constructor
  · decide
  · decide

/-- C1 (amended).  Parsing terminates exactly when two reads of a key have
failed, and a read of a key fails only once the input is exhausted: on every
input the loop exits through its `invalid_line > 1` break (never by running
out of fuel), with `invalid_line = 2` and the whole input consumed — so no
malformed line inside the file ever terminates parsing early.  In
particular, a single isolated malformed line followed by a valid line does
not terminate parsing early: in `"a,1\nz\nb,2\n"` the malformed line `z` is
absorbed into the following key and the value `2` is still parsed. -/
theorem claim_C1_amended (cs : List Char) :
    ((runParse ⟨cs, false, false⟩).2 = false ∧
     (runParse ⟨cs, false, false⟩).1.invalid = 2 ∧
     (runParse ⟨cs, false, false⟩).1.stream.rem = []) ∧
    dictLookup (runParse ⟨"a,1\nz\nb,2\n".data, false, false⟩).1.dict ("z\nb".data)
      = some ("2".data) :=
  ⟨runParse_spec cs, by decide⟩

/-- C2 counterexample.  The fixture behind `fsBad` loads and merges cleanly
but violates two independent fatal validation conditions: a geometry
mismatch (declared output width 4, padded width 8) and an invalid
calibration (`depth_units = 0`); every other check passes.  Because the
cascade uses `REQUIRE` (fatal, throwing) assertions, only the first
violated condition is reported and the calibration check is never run, so
the claim that all applicable checks run and every failure is reported
independently is false. -/
theorem claim_C2_counterexample :
    violatedChecks (mergedCfgOf fsBad ("C".data)) =
      ["output_res_x == _padded_width", "depth_units > 0"] ∧
    loadOutcomeOf fsBad ("C".data) =
      .error (.requireFailed "output_res_x == _padded_width") := by
  constructor
  · decide
  · decide

/-- C2 (amended).  The validation conditions are checked in a fixed order by
fatal `REQUIRE` assertions: the load reports exactly the first violated
condition of the cascade (and nothing when none is violated); the checks
after the first violated one never run. -/
theorem claim_C2_amended (c : ppf_test_config) :
    runValidation c = (violatedChecks c).head? :=
  runValidation_eq_head c

/-- C3 counterexample.  `reset()` does not restore a freshly constructed
record: it leaves `frames_sequence_size`, `depth_units`, `stereo_baseline`,
`focal_length` and both frame-name lists untouched.  On a record with
sequence size 7 and depth units 5, the reset record still has sequence size
7 (a fresh record has 1) and depth units 5 (a fresh record has 0.001 — note
the claim's "all numeric fields zero" does not even hold for a freshly
constructed record). -/
theorem claim_C3_counterexample :
    (ppf_reset staleRecord).frames_sequence_size = 7 ∧
    (ppf_reset staleRecord).depth_units = 5 ∧
    (ppf_reset staleRecord).input_frame_names = ["stale".data] ∧
    (ppf_default 0).frames_sequence_size = 1 ∧
    (ppf_default 0).depth_units = mkRat 1 1000 ∧
    ppf_reset staleRecord ≠ ppf_default 0 := by
  refine ⟨rfl, by decide, rfl, rfl, rfl, by decide⟩

/-- C3 (amended).  `reset()` clears the name, sets the three filter toggles
to false, zeroes the filter parameters and the four resolutions, resets
`downsample_scale` to 1 and clears the two frame-buffer lists, but leaves
`depth_units`, `stereo_baseline`, `focal_length`, `frames_sequence_size` and
the two frame-name lists at their previous values — so the result is not in
general equivalent to a freshly constructed record. -/
theorem claim_C3_amended (c : ppf_test_config) :
    ppf_reset c =
      { name := [], spatial_filter := false, spatial_alpha := 0, spatial_delta := 0,
        spatial_iterations := 0, temporal_filter := false, temporal_alpha := 0,
        temporal_delta := 0, temporal_persistence := 0, holes_filter := false,
        holes_filling_mode := 0, downsample_scale := 1,
        depth_units := c.depth_units, stereo_baseline := c.stereo_baseline,
        focal_length := c.focal_length,
        input_res_x := 0, input_res_y := 0, output_res_x := 0, output_res_y := 0,
        frames_sequence_size := c.frames_sequence_size,
        input_frame_names := c.input_frame_names,
        output_frame_names := c.output_frame_names,
        input_frames := [], output_frames := [] } := rfl

/-- C4 counterexample.  `fsBig` is accepted by `load_test_configuration`
(outcome `ok (true, _)`): its `uint32_t` input width is 2147483652, its
downsample scale 1 and its declared (and validated) output width 4, because
the validator truncates the quotient to 16 bits before adding the margin
(2147483652 mod 2^16 = 4, and (4+3)/4*4 = 4).  The formula of the claim,
`floor((input_res_x / downsample_scale + 3) / 4) * 4`, gives 2147483652,
not 4. -/
theorem claim_C4_counterexample :
    loadOutcomeOf fsBig ("B".data) = .ok (true, loadedCfg fsBig ("B".data)) ∧
    (loadedCfg fsBig ("B".data)).input_res_x = 2147483652 ∧
    (loadedCfg fsBig ("B".data)).downsample_scale = 1 ∧
    (loadedCfg fsBig ("B".data)).output_res_x = 4 ∧
    spec_expected_dim 2147483652 1 = 2147483652 ∧
    (loadedCfg fsBig ("B".data)).output_res_x ≠ spec_expected_dim 2147483652 1 := by
  refine ⟨by decide, by decide, by decide, by decide, by decide, by decide⟩

/-- C4 (amended).  For every fixture accepted by `load_test_configuration`,
the declared output width equals
`floor(((input_res_x / downsample_scale) mod 2^16 + 3) / 4) * 4` — the
quotient is truncated to 16 bits (through the `uint16_t` cast) before the
`+3` margin — and identically for the height, with the divisor being the
`uint32_t` conversion of `downsample_scale`. -/
theorem claim_C4_amended (fs : FS) (tn : List Char) (t cfg : ppf_test_config)
    (h : (load_test_configuration fs tn t).outcome = .ok (true, cfg)) :
    cfg.output_res_x = ((cfg.input_res_x / toU32 cfg.downsample_scale) % 2 ^ 16 + 3) / 4 * 4 ∧
    cfg.output_res_y = ((cfg.input_res_y / toU32 cfg.downsample_scale) % 2 ^ 16 + 3) / 4 * 4 :=
  accepted_geometry fs tn t cfg h

/-- C4 witness: the amended statement instantiated on the concretely
accepted fixture `fsSmall`. -/
theorem claim_C4_witness :
    (loadedCfg fsSmall ("T".data)).output_res_x =
      (((loadedCfg fsSmall ("T".data)).input_res_x /
          toU32 (loadedCfg fsSmall ("T".data)).downsample_scale) % 2 ^ 16 + 3) / 4 * 4 ∧
    (loadedCfg fsSmall ("T".data)).output_res_y =
      (((loadedCfg fsSmall ("T".data)).input_res_y /
          toU32 (loadedCfg fsSmall ("T".data)).downsample_scale) % 2 ^ 16 + 3) / 4 * 4 :=
  claim_C4_amended fsSmall ("T".data) (ppf_default 0) (loadedCfg fsSmall ("T".data)) (by decide)

/-- C5 counterexample.  `fsSmall` is accepted by `load_test_configuration`
with input width 4, downsample scale 1 and output width 4, but the formula
of the claim gives `round_up_to_4(floor(4/1)+3) = round_up_to_4(7) = 8`:
the code does not round up after adding a +3 margin to the quotient; the
`+3`/`/4`/`*4` sequence is itself the rounding-up of the (truncated)
quotient. -/
theorem claim_C5_counterexample :
    loadOutcomeOf fsSmall ("T".data) = .ok (true, loadedCfg fsSmall ("T".data)) ∧
    (loadedCfg fsSmall ("T".data)).input_res_x = 4 ∧
    (loadedCfg fsSmall ("T".data)).downsample_scale = 1 ∧
    (loadedCfg fsSmall ("T".data)).output_res_x = 4 ∧
    round_up_to_4 (4 / 1 + 3) = 8 ∧
    (loadedCfg fsSmall ("T".data)).output_res_x ≠ round_up_to_4 (4 / 1 + 3) := by
  refine ⟨by decide, by decide, by decide, by decide, by decide, by decide⟩

/-- C5 (amended).  For every accepted fixture,
`output_res_x = round_up_to_4((floor(input_res_x / downsample_scale)) mod 2^16)`
— the smallest multiple of 4 that is at least the 16-bit-truncated quotient
itself (not the quotient plus 3) — and identically for the height. -/
theorem claim_C5_amended (fs : FS) (tn : List Char) (t cfg : ppf_test_config)
    (h : (load_test_configuration fs tn t).outcome = .ok (true, cfg)) :
    cfg.output_res_x =
      round_up_to_4 ((cfg.input_res_x / toU32 cfg.downsample_scale) % 2 ^ 16) ∧
    cfg.output_res_y =
      round_up_to_4 ((cfg.input_res_y / toU32 cfg.downsample_scale) % 2 ^ 16) :=
  accepted_geometry fs tn t cfg h

/-- C5 witness: the amended statement instantiated on the concretely
accepted fixture `fsSmall`. -/
theorem claim_C5_witness :
    (loadedCfg fsSmall ("T".data)).output_res_x =
      round_up_to_4 (((loadedCfg fsSmall ("T".data)).input_res_x /
        toU32 (loadedCfg fsSmall ("T".data)).downsample_scale) % 2 ^ 16) ∧
    (loadedCfg fsSmall ("T".data)).output_res_y =
      round_up_to_4 (((loadedCfg fsSmall ("T".data)).input_res_y /
        toU32 (loadedCfg fsSmall ("T".data)).downsample_scale) % 2 ^ 16) :=
  claim_C5_amended fsSmall ("T".data) (ppf_default 0) (loadedCfg fsSmall ("T".data)) (by decide)

/-- C7.  When any of the four required fixture files is absent,
`load_test_configuration` emits one warning naming each missing file,
returns the skip outcome `ok (false, tc0)` — not a fatal error — and the
caller record `tc0` is returned untouched: no parsing happens, so no partial
configuration is produced. -/
theorem claim_C7 (fs : FS) (tn : List Char) (t : ppf_test_config)
    (h : missingFiles fs tn ≠ []) :
    load_test_configuration fs tn t =
      { warnings := (missingFiles fs tn).map warnMissing, outcome := .ok (false, t) } := by
  rw [load_test_configuration]
  split
  · rename_i he
    rw [List.isEmpty_iff] at he
    exact absurd he h
  · rfl

/-- C7 witness: on an empty file system all four required files of fixture
`X` are missing, and the load returns the skip outcome with one warning per
missing file and the caller record untouched. -/
theorem claim_C7_witness :
    load_test_configuration fsNone ("X".data) (ppf_default 0) =
      { warnings := (missingFiles fsNone ("X".data)).map warnMissing,
        outcome := .ok (false, ppf_default 0) } :=
  claim_C7 fsNone ("X".data) (ppf_default 0) (by decide)

/-- C6.  For every nonempty difference sequence and thresholds,
`profile_diffs` succeeds and returns a profile `r` such that: the verdict is
true exactly when the population standard deviation (the square root of the
`inverse * e` variance) is at most `max_allowed_std` and the absolute value
of the maximum-valued element is at most `outlier`; `max_val` really is the
maximum-valued element of the sequence; both threshold checks are recorded
(continue-on-failure semantics — the `recorded` list always holds both
entries, whatever their outcomes); and the returned boolean is exactly the
conjunction of the two recorded checks. -/
theorem claim_C6 (ds : List ℚ) (mstd out : ℚ) (h : ds ≠ []) :
    ∃ r, profile_diffs ds mstd out = some r ∧
      (r.verdict = true ↔
        (Real.sqrt ((r.variance : ℚ) : ℝ) ≤ (mstd : ℝ) ∧ |r.max_val| ≤ out)) ∧
      r.max_val ∈ ds ∧ (∀ x ∈ ds, x ≤ r.max_val) ∧
      r.recorded = [("standard_deviation <= max_allowed_std", r.std_check),
                    ("fabs(max_val) <= outlier", r.outlier_check)] ∧
      r.verdict = (r.outlier_check && r.std_check) := by
  have hne : ds.isEmpty = false := by
    rcases ds with _ | ⟨d0, rest⟩
    · exact absurd rfl h
    · rfl
  refine ⟨profileOf ds mstd out, ?_, ?_, ?_, ?_, rfl, rfl⟩
  · rw [profile_diffs, hne]
    rfl
  · have hv : (profileOf ds mstd out).verdict =
        ((profileOf ds mstd out).outlier_check && (profileOf ds mstd out).std_check) := rfl
    rw [hv, Bool.and_eq_true, profileOf_std_check_iff, profileOf_outlier_check_iff]
    constructor
    · rintro ⟨ho, hs⟩
      exact ⟨hs, ho⟩
    · rintro ⟨hs, ho⟩
      exact ⟨ho, hs⟩
  · rw [profileOf_max]
    rcases ds with _ | ⟨d0, rest⟩
    · exact absurd rfl h
    · exact listMaxQ_mem d0 rest
  · rw [profileOf_max]
    rcases ds with _ | ⟨d0, rest⟩
    · exact absurd rfl h
    · exact listMaxQ_ge d0 rest

/-- C6 witness: the statement instantiated on `[0, 0, 5, 0]` with
`max_allowed_std = 3` and `outlier = 5`. -/
theorem claim_C6_witness :
    ∃ r, profile_diffs [(0 : ℚ), 0, 5, 0] 3 5 = some r ∧
      (r.verdict = true ↔
        (Real.sqrt ((r.variance : ℚ) : ℝ) ≤ ((3 : ℚ) : ℝ) ∧ |r.max_val| ≤ 5)) ∧
      r.max_val ∈ [(0 : ℚ), 0, 5, 0] ∧ (∀ x ∈ [(0 : ℚ), 0, 5, 0], x ≤ r.max_val) ∧
      r.recorded = [("standard_deviation <= max_allowed_std", r.std_check),
                    ("fabs(max_val) <= outlier", r.outlier_check)] ∧
      r.verdict = (r.outlier_check && r.std_check) :=
  claim_C6 [(0 : ℚ), 0, 5, 0] 3 5 (by decide)

/-- C8.  Every successful load stores in the merged configuration a stereo
baseline equal to the value parsed from the input metadata file multiplied
by 1000 (meters to millimeters). -/
theorem claim_C8 (fs : FS) (tn : List Char) (t cfg : ppf_test_config)
    (h : (load_test_configuration fs tn t).outcome = .ok (true, cfg)) :
    ∃ im, attrib_from_csv
        (readStream fs (fs.folder ++ tn ++ ".0".data ++ ".Input.csv".data)) = .ok im ∧
      cfg.stereo_baseline = im.stereo_baseline * 1000 := by
  obtain ⟨hm, _⟩ := load_ok_true fs tn t cfg h
  obtain ⟨im, om, inF, outF, h1, h2, hc⟩ := loadMerged_ok fs tn cfg hm
  refine ⟨im, h1, ?_⟩
  rw [hc]
  show ratMul im.stereo_baseline 1000 = im.stereo_baseline * 1000
  rw [ratMul_eq]

/-- C8 witness: the statement instantiated on the concrete fixture
`fsSmall`, whose input metadata carries `Stereo Baseline,0.05`; the loaded
configuration stores 50. -/
theorem claim_C8_witness :
    ∃ im, attrib_from_csv
        (readStream fsSmall (fsSmall.folder ++ "T".data ++ ".0".data ++ ".Input.csv".data))
        = .ok im ∧
      (loadedCfg fsSmall ("T".data)).stereo_baseline = im.stereo_baseline * 1000 :=
  claim_C8 fsSmall ("T".data) (ppf_default 0) (loadedCfg fsSmall ("T".data)) (by decide)

/-- C9.  In the geometry validation, the quotient `input_res_x /
downsample_scale` is cast to `uint16_t` before the `+3` margin: whenever the
quotient is at least 2^16, the expected dimension is computed from the
quotient reduced mod 2^16 (and therefore differs from the untruncated
formula), and the first check of the cascade compares the declared
`output_res_x` against exactly that wrapped value. -/
theorem claim_C9 (c : ppf_test_config)
    (h : 2 ^ 16 ≤ c.input_res_x / toU32 c.downsample_scale) :
    padded_dim c.input_res_x c.downsample_scale
      = ((c.input_res_x / toU32 c.downsample_scale) % 2 ^ 16 + 3) / 4 * 4 ∧
    (validationChecks c).head? = some ("output_res_x == _padded_width",
      c.output_res_x == padded_dim c.input_res_x c.downsample_scale) ∧
    padded_dim c.input_res_x c.downsample_scale
      ≠ spec_expected_dim c.input_res_x (toU32 c.downsample_scale) := by
  refine ⟨rfl, by rw [validationChecks]; rfl, ?_⟩
  rw [padded_dim, spec_expected_dim]
  generalize c.input_res_x / toU32 c.downsample_scale = q at h ⊢
  omega

/-- C9 witness: the statement instantiated on `bigQuotientCfg`, whose width
quotient is 65600 ≥ 2^16. -/
theorem claim_C9_witness :
    padded_dim bigQuotientCfg.input_res_x bigQuotientCfg.downsample_scale
      = ((bigQuotientCfg.input_res_x / toU32 bigQuotientCfg.downsample_scale) % 2 ^ 16 + 3)
        / 4 * 4 ∧
    (validationChecks bigQuotientCfg).head? = some ("output_res_x == _padded_width",
      bigQuotientCfg.output_res_x
        == padded_dim bigQuotientCfg.input_res_x bigQuotientCfg.downsample_scale) ∧
    padded_dim bigQuotientCfg.input_res_x bigQuotientCfg.downsample_scale
      ≠ spec_expected_dim bigQuotientCfg.input_res_x (toU32 bigQuotientCfg.downsample_scale) :=
  claim_C9 bigQuotientCfg (by decide)

/-- C10.  The outlier bound is applied to the absolute value of the signed
maximum element, not to the element of maximum absolute value: on the
sequence `[-10, 1]` with `max_allowed_std = 6` and `outlier = 5`, the
most-negative element −10 exceeds the outlier bound in magnitude
(¬(|-10| ≤ 5)) while the maximum element is 1 (|1| ≤ 5), the standard
deviation 5.5 is within the bound 6 (so the recorded standard-deviation
check passes), and `profile_diffs` returns a passing verdict. -/
theorem claim_C10 :
    (profile_diffs [(-10 : ℚ), 1] 6 5).map DiffProfile.verdict = some true ∧
    (profile_diffs [(-10 : ℚ), 1] 6 5).map DiffProfile.max_val = some 1 ∧
    (profile_diffs [(-10 : ℚ), 1] 6 5).map DiffProfile.std_check = some true ∧
    (-10 : ℚ) ∈ [(-10 : ℚ), 1] ∧ ¬(|(-10 : ℚ)| ≤ 5) ∧ |(1 : ℚ)| ≤ 5 := by
  refine ⟨by decide, by decide, by decide, by decide, by norm_num, by norm_num⟩
